import Mathlib

/-!
Shallow embedding of a Go Elasticsearch client layer and proofs about it.

The embedding models the client-side operations of the package
(`CreateDocument`, `UpdateDocument`, `RemoveDocument`, `Search`, `Count`,
`GetSource`, `CreateIndexTemplate`, `DeleteIndeces`, `Refresh`) as pure
functions of their Go arguments together with the result the backend
capability call would produce (`TransportResult`).  Dynamic Go JSON values
(`interface\x7b\x7d` trees produced by `encoding/json`) are modelled by the
inductive `Json`; JSON numbers are modelled by `Int`, which is faithful for
every integral value the proofs touch (no claim here depends on fractional
or overflow behaviour of `float64`).

Go control-flow features that do not return a value are modelled explicitly
by the `Outcome` type:

* `Outcome.fatal` — a `log.Fatalf` call was reached.  `log.Fatalf` prints
  and then calls `os.Exit(1)`: the process terminates and the `return`
  statement that follows it in the source is dead code.
* `Outcome.panicked` — a Go runtime panic: a failed single-value type
  assertion `x.(T)`, or a nil-pointer dereference.  In particular, in
  `defer res.Body.Close()` the receiver `res.Body` is evaluated at the
  point of the `defer` statement, so when `res` is the nil response of a
  transport-level failure ("no response obtained", err non-nil and res
  nil), the `defer` line itself dereferences nil and panics.
-/

namespace Elasticsearch

/-- Go JSON value trees (`interface\x7b\x7d` as produced by `encoding/json`):
null, booleans, numbers (modelled by `Int`), strings, arrays and objects
(association lists, keys unique in any value produced by a decoder). -/
inductive Json where
  | null : Json
  | bool (b : Bool) : Json
  | num (n : Int) : Json
  | str (s : String) : Json
  | arr (xs : List Json) : Json
  | obj (fields : List (String × Json)) : Json

/-- The raw body of a backend HTTP response, as seen by this layer:
reading it may fail, the bytes may fail to parse as JSON, or they parse
to a `Json` value. -/
inductive RespBody where
  | unreadable : RespBody
  | malformed : RespBody
  | json (v : Json) : RespBody

/-- Go `error` values produced by this layer.  Only the shape matters to the
claims (nil versus non-nil, and a few fixed `errors.New` texts), so the
dynamic messages are kept symbolic. -/
inductive GoError where
  /-- `errors.New` with a fixed message, e.g. `"Required body"`. -/
  | lit (s : String) : GoError
  /-- `fmt.Errorf("...: %s", err)` wrapping an inner error. -/
  | wrap (s : String) (inner : GoError) : GoError
  /-- `fmt.Errorf("[%s] %s: %s", res.Status(), e["error"]["type"], e["error"]["reason"])`. -/
  | backendBody (status : Int) (ty : Json) (reason : Json) : GoError
  /-- `errors.New(res.String())`. -/
  | respString (status : Int) (b : RespBody) : GoError
  /-- a `json.Marshal` failure on an unserializable value. -/
  | marshalErr : GoError
  /-- a `json` decode failure (unreadable or malformed body, or shape mismatch). -/
  | decodeFail : GoError

/-- A backend HTTP response: status code and body. -/
structure Response where
  StatusCode : Int
  RBody : RespBody

/-- Modelled from the spec: the `esapi.Response.IsError` helper is library
code outside this repository; per the spec, `IsError` is true exactly when
the backend HTTP status is an error status, `>= 400`. -/
def Response.IsError (r : Response) : Bool :=
  decide (400 ≤ r.StatusCode)

/-- The result of one backend capability call: either a transport-level
failure (err non-nil, and no response obtained — `res` is nil), or a
response. -/
inductive TransportResult where
  | failure (e : GoError) : TransportResult
  | response (r : Response) : TransportResult

/-- How a Go function call ends: a normal `return` with value `a`, process
termination through `log.Fatalf` (`os.Exit(1)`), or a runtime panic. -/
inductive Outcome (α : Type) where
  | ret (a : α) : Outcome α
  | fatal : Outcome α
  | panicked : Outcome α

/-- Sequencing on `Outcome`: `fatal` and `panicked` abort the rest of the
function body. -/
def Outcome.bind {α β : Type} : Outcome α → (α → Outcome β) → Outcome β
  | .ret a, f => f a
  | .fatal, _ => .fatal
  | .panicked, _ => .panicked

/-- Go status codes of this layer (`type StatusCode int`). -/
abbrev StatusCode := Int

def StatusSuccess : StatusCode := 200
def StatusNoContent : StatusCode := 204
def StatusCreated : StatusCode := 201
def StatusBadRequestError : StatusCode := 400
def StatusNotFoundError : StatusCode := 404
def StatusRequestError : StatusCode := 499
def StatusInternalError : StatusCode := 500
def StatusUnexpectedError : StatusCode := 520
def StatusParseError : StatusCode := 521
def StatusError : StatusCode := 599

/-- A Go slice: `none` is the nil slice, `some l` a non-nil slice holding
`l`.  A zero-argument call of a variadic Go function passes the nil slice,
while spreading an explicit empty slice passes `some []`; the two are
distinct Go values. -/
abbrev GoSlice (α : Type) := Option (List α)

/-- A Go value handed to `json.Marshal`: either it serializes to a JSON
tree, or marshalling fails (an unsupported value such as a channel). -/
inductive GoValue where
  | jsonable (v : Json) : GoValue
  | unserializable : GoValue

/-- Model of `json.Marshal` on an opaque Go value. -/
def marshal : GoValue → Except GoError Json
  | .jsonable v => .ok v
  | .unserializable => .error .marshalErr

/-- The `Document` argument of the write operations.  `Body` is
`interface\x7b\x7d` (nil modelled as `none`); `Refresh` is the
`RefreshPolicy` string, zero value `""`. -/
structure Document where
  Index : String
  ID : String
  Body : Option GoValue
  Refresh : String

def RefreshTrue : String := "true"
def RefreshFalse : String := "false"
def RefreshWaitFor : String := "wait_for"

/-- First-match lookup in a decoded JSON object (Go map index; keys are
unique in decoder output, so first match is the map entry). -/
def jlookup (k : String) : List (String × Json) → Option Json
  | [] => none
  | (k2, v) :: rest => if k2 = k then some v else jlookup k rest

/-- Projection of a `Json` value to an object, as used by a Go type
assertion `x.(map[string]interface\x7b\x7d)`; `none` means the assertion
fails (and in single-value form, panics). -/
def Json.asObj : Json → Option (List (String × Json))
  | .obj fs => some fs
  | _ => none

/-- Model of `json.NewDecoder(res.Body).Decode(&r)` for `r map[string]interface\x7b\x7d`:
a read error or malformed JSON is a decode error, JSON `null` leaves the
nil map in place (`none`), an object decodes to its fields, and any other
JSON value cannot decode into a map. -/
def decodeIntoMap : RespBody → Except GoError (Option (List (String × Json)))
  | .unreadable => .error .decodeFail
  | .malformed => .error .decodeFail
  | .json .null => .ok none
  | .json (.obj fs) => .ok (some fs)
  | .json _ => .error .decodeFail

/-- Reading key `k` of a possibly-nil Go map: the nil map yields the zero
value (nil interface, `none`) for every key. -/
def mapGet (m : Option (List (String × Json))) (k : String) : Option Json :=
  match m with
  | none => none
  | some fs => jlookup k fs

/-- The `(StatusCode, error)` pair returned by the write and admin
operations. -/
structure OpReturn where
  status : StatusCode
  err : Option GoError

/-- Result of a write operation: how the call ended, whether the backend
capability was invoked at all, and the JSON payload placed in the backend
request body when one was built. -/
structure WriteResult where
  outcome : Outcome OpReturn
  backendCalled : Bool
  sentBody : Option Json

/-- The function `CreateDocument`: nil body short-circuits with `StatusInternalError`;
a marshal failure returns `StatusInternalError`; then the `esapi.IndexRequest`
is issued.  Transport failure returns `StatusRequestError`.  A backend error
response maps 400 to `StatusBadRequestError` and anything else to
`StatusError` with the (nil) `err` of the call.  On a success response the
body is decoded into a map for logging; decode failure returns
`StatusUnexpectedError` with nil error, and the log line asserts
`r["_version"].(float64)`, panicking when `_version` is not a JSON number.
Otherwise `StatusCreated` is returned. -/
def CreateDocument (doc : Document) (backend : TransportResult) : WriteResult :=
  match doc.Body with
  | none => ⟨.ret ⟨StatusInternalError, some (.lit "Required body")⟩, false, none⟩
  | some b =>
    match marshal b with
    | .error e => ⟨.ret ⟨StatusInternalError, some e⟩, false, none⟩
    | .ok v =>
      match backend with
      | .failure e => ⟨.ret ⟨StatusRequestError, some e⟩, true, some v⟩
      | .response r =>
        if r.IsError then
          if r.StatusCode = 400 then
            ⟨.ret ⟨StatusBadRequestError, some (.lit "bad request")⟩, true, some v⟩
          else
            ⟨.ret ⟨StatusError, none⟩, true, some v⟩
        else
          match decodeIntoMap r.RBody with
          | .error _ => ⟨.ret ⟨StatusUnexpectedError, none⟩, true, some v⟩
          | .ok m =>
            match mapGet m "_version" with
            | some (.num _) => ⟨.ret ⟨StatusCreated, none⟩, true, some v⟩
            | _ => ⟨.panicked, true, some v⟩

/-- Model of `json.Marshal(&documentBody\x7bDoc: doc.Body\x7d)`: the wrapper struct has
the single tagged field `doc`, so it serializes to `\x7b"doc": <body>\x7d` and
fails exactly when the inner body fails to serialize. -/
def marshalDocumentBody : GoValue → Except GoError Json
  | .jsonable v => .ok (.obj [("doc", v)])
  | .unserializable => .error .marshalErr

/-- The function `UpdateDocument`: nil body short-circuits with `StatusInternalError`;
the body is wrapped as `\x7bdoc: <body>\x7d` and sent through an
`esapi.UpdateRequest`.  Transport failure returns `StatusRequestError`;
a backend error response maps 400 to `StatusBadRequestError` and anything
else to `StatusError` with `errors.New(res.String())`; on a success
response a decode failure of the body returns `StatusUnexpectedError`
with the decode error, the log line asserts `r["_version"].(float64)`,
and otherwise `StatusSuccess` is returned. -/
def UpdateDocument (doc : Document) (backend : TransportResult) : WriteResult :=
  match doc.Body with
  | none => ⟨.ret ⟨StatusInternalError, some (.lit "Required body")⟩, false, none⟩
  | some b =>
    match marshalDocumentBody b with
    | .error e => ⟨.ret ⟨StatusInternalError, some e⟩, false, none⟩
    | .ok v =>
      match backend with
      | .failure e => ⟨.ret ⟨StatusRequestError, some e⟩, true, some v⟩
      | .response r =>
        if r.IsError then
          if r.StatusCode = 400 then
            ⟨.ret ⟨StatusBadRequestError, some (.lit "bad request")⟩, true, some v⟩
          else
            ⟨.ret ⟨StatusError, some (.respString r.StatusCode r.RBody)⟩, true, some v⟩
        else
          match decodeIntoMap r.RBody with
          | .error e => ⟨.ret ⟨StatusUnexpectedError, some e⟩, true, some v⟩
          | .ok m =>
            match mapGet m "_version" with
            | some (.num _) => ⟨.ret ⟨StatusSuccess, none⟩, true, some v⟩
            | _ => ⟨.panicked, true, some v⟩

/-- The function `RemoveDocument`: no body; an `esapi.DeleteRequest` is issued directly.
Transport failure returns `StatusRequestError`; a backend error response
maps 400 to `StatusBadRequestError`, 404 to `StatusNotFoundError`, and
anything else to `StatusError` with `errors.New(res.String())`; on a
success response a body decode failure returns `StatusUnexpectedError`
with `errors.New("parse error")`, otherwise `StatusSuccess`. -/
def RemoveDocument (doc : Document) (backend : TransportResult) : WriteResult :=
  match doc, backend with
  | _, .failure e => ⟨.ret ⟨StatusRequestError, some e⟩, true, none⟩
  | _, .response r =>
    if r.IsError then
      if r.StatusCode = 400 then
        ⟨.ret ⟨StatusBadRequestError, some (.lit "bad request")⟩, true, none⟩
      else if r.StatusCode = 404 then
        ⟨.ret ⟨StatusNotFoundError, some (.lit "not found")⟩, true, none⟩
      else
        ⟨.ret ⟨StatusError, some (.respString r.StatusCode r.RBody)⟩, true, none⟩
    else
      match decodeIntoMap r.RBody with
      | .error _ => ⟨.ret ⟨StatusUnexpectedError, some (.lit "parse error")⟩, true, none⟩
      | .ok _ => ⟨.ret ⟨StatusSuccess, none⟩, true, none⟩

/-- The function `CreateIndexTemplate`: an `esapi.IndicesPutIndexTemplateRequest` is
issued.  Transport failure returns `StatusInternalError` with the error;
a backend error response maps 400 to `StatusBadRequestError` and anything
else to `StatusError` with the (nil) `err` of the call; otherwise
`StatusSuccess` with the (nil) `err`. -/
def CreateIndexTemplate (name templates : String) (backend : TransportResult) : OpReturn :=
  match name, templates, backend with
  | _, _, .failure e => ⟨StatusInternalError, some e⟩
  | _, _, .response r =>
    if r.IsError then
      if r.StatusCode = 400 then ⟨StatusBadRequestError, some (.lit "bad request")⟩
      else ⟨StatusError, none⟩
    else ⟨StatusSuccess, none⟩

/-- The function `DeleteIndeces`: an `esapi.IndicesDeleteRequest` over the given index
slice.  Transport failure returns `StatusError` with the error; a backend
error response returns `StatusUnexpectedError` with
`errors.New(res.String())`; otherwise `StatusSuccess`. -/
def DeleteIndeces (index : GoSlice String) (backend : TransportResult) : OpReturn :=
  match index, backend with
  | _, .failure e => ⟨StatusError, some e⟩
  | _, .response r =>
    if r.IsError then ⟨StatusUnexpectedError, some (.respString r.StatusCode r.RBody)⟩
    else ⟨StatusSuccess, none⟩

/-- The `(StatusCode, int, error)` triple returned by `Count`. -/
structure CountReturn where
  status : StatusCode
  count : Int
  err : Option GoError

/-- The function `Count`: the backend count capability is called, then
`defer res.Body.Close()` runs before the `err` check, so a transport
failure (nil response) panics on the nil dereference.  A backend error
response reaches `log.Fatalf` (process exit); a body decode failure
reaches `log.Fatalf`; otherwise `r["count"].(float64)` is asserted
(panicking unless `count` is a JSON number) and
`(StatusSuccess, int(count), nil)` is returned. -/
def Count (backend : TransportResult) : Outcome CountReturn :=
  match backend with
  | .failure _ => .panicked
  | .response r =>
    if r.IsError then .fatal
    else
      match decodeIntoMap r.RBody with
      | .error _ => .fatal
      | .ok m =>
        match mapGet m "count" with
        | some (.num n) => .ret ⟨StatusSuccess, n, none⟩
        | _ => .panicked

/-- The `(int, error)` pair returned by `GetSource`, plus two frame-effect
observations: whether `io.ReadAll(res.Body)` was reached, and whether
`json.Unmarshal` wrote into the caller-supplied `result`. -/
structure GetSourceReturn where
  code : Int
  err : Option GoError
  bodyRead : Bool
  resultWritten : Bool

/-- The function `GetSource`: the backend get-source capability is called, then
`defer res.Body.Close()` runs before the `err` check, so a transport
failure (nil response) panics on the nil dereference.  A 404 response
returns `(404, nil)` at once, before the body is read.  Otherwise the
body is read (`log.Fatalf` on read error) and unmarshalled into the
caller's `result` (`log.Fatalf` on unmarshal error — the `return`
statements after those `log.Fatalf` calls are dead), and
`(res.StatusCode, nil)` is returned.  `unmarshal v` is the error, if any,
of `json.Unmarshal` of `v` into the caller's `result` type. -/
def GetSource (backend : TransportResult) (unmarshal : Json → Option GoError) :
    Outcome GetSourceReturn :=
  match backend with
  | .failure _ => .panicked
  | .response r =>
    if r.StatusCode = 404 then .ret ⟨r.StatusCode, none, false, false⟩
    else
      match r.RBody with
      | .unreadable => .fatal
      | .malformed => .fatal
      | .json v =>
        match unmarshal v with
        | some _ => .fatal
        | none => .ret ⟨r.StatusCode, none, true, true⟩

/-- The `esapi.IndicesRefreshRequest` built by `Refresh`: the request
holds the index slice it was given. -/
structure IndicesRefreshRequest where
  Index : GoSlice String

/-- The function `Refresh(index ...string)` passes its variadic slice through unchanged:
`req.Index = index`.  A zero-argument call passes the nil slice
(`none`); spreading an explicit empty slice passes `some []`. -/
def Refresh (index : GoSlice String) : IndicesRefreshRequest :=
  ⟨index⟩

/-- Modelled from the spec: the semantics of the backend
`indices.refresh` capability (library and server code, outside this
repository) — a request naming no indices (the zero-argument form)
refreshes all indices; a request naming indices refreshes those. -/
def refreshTargets (req : IndicesRefreshRequest) (allIndices : List String) : List String :=
  match req.Index with
  | none => allIndices
  | some l => l

/-- Per-hit metadata extracted by `Search` (`HitData` in the source; the Go
fields `Type` and `Sort` are spelled `Ty` and `Srt` here because both are
Lean keywords).  `Score` stays `0` when `_score` is absent or JSON null;
`Srt` stays the nil slice (`none`) when `sort` is absent or JSON null. -/
structure HitData where
  Index : String
  Ty : String
  Id : String
  Score : Int
  Srt : Option (List Json)

/-- The `_score` handling of the `Search` loop: absent or null keeps the zero
value, a number is asserted by `score.(float64)`, anything else panics
(`none`). -/
def scoreOf (h : List (String × Json)) : Option Int :=
  match jlookup "_score" h with
  | none => some 0
  | some .null => some 0
  | some (.num n) => some n
  | some _ => none

/-- The `sort` handling of the `Search` loop: absent or null keeps the nil
slice, an array is asserted by `sort.([]interface\x7b\x7d)`, anything else
panics (`none`). -/
def sortOf (h : List (String × Json)) : Option (Option (List Json)) :=
  match jlookup "sort" h with
  | none => some none
  | some .null => some none
  | some (.arr xs) => some (some xs)
  | some _ => none

/-- One iteration of the `Search` loop over `hits`: the hit is asserted to
be an object, `documents[i]` is set to `hit["_source"]` (the nil interface,
i.e. JSON null, when absent), and `_index`, `_type`, `_id` are asserted to
be strings; `none` is a panic of any of those assertions. -/
def hitDataOf (hit : Json) : Option (Json × HitData) :=
  match hit.asObj with
  | none => none
  | some h =>
    match jlookup "_index" h, jlookup "_type" h, jlookup "_id" h with
    | some (.str ix), some (.str ty), some (.str idv) =>
      match scoreOf h, sortOf h with
      | some sc, some so => some ((jlookup "_source" h).getD .null, ⟨ix, ty, idv, sc, so⟩)
      | _, _ => none
    | _, _, _ => none

/-- The `Search` loop over the whole `hits` array, producing the
`(documents[i], hitsData[i])` pairs in array order; `none` is a panic in
some iteration. -/
def hitsDataOfList : List Json → Option (List (Json × HitData))
  | [] => some []
  | hit :: rest =>
    match hitDataOf hit, hitsDataOfList rest with
    | some p, some ps => some (p :: ps)
    | _, _ => none

/-- The `total` extraction of `Search`: `total` stays `0` when the key is
absent; otherwise `t.(map[string]interface\x7b\x7d)["value"].(float64)` is
asserted, panicking when `total` is not an object or `value` is not a
number. -/
def totalOf (ho : List (String × Json)) : Outcome Int :=
  match jlookup "total" ho with
  | none => .ret 0
  | some t =>
    match t.asObj with
    | none => .panicked
    | some tObj =>
      match jlookup "value" tObj with
      | some (.num n) => .ret n
      | _ => .panicked

/-- What `Search` hands back: the `(StatusCode, []*HitData, int, error)`
quadruple of the source, plus `documents` — the array of per-hit `_source`
values that is re-serialized and unmarshalled into the caller's container
(`none` when that unmarshal step was never reached, `some l` when `l` was
handed to it). -/
structure SearchRet where
  status : StatusCode
  hits : List HitData
  total : Int
  documents : Option (List Json)
  err : Option GoError

/-- The error message `Search` builds from an error response: a decode
failure of the error body is wrapped; otherwise
`e["error"].(map[string]interface\x7b\x7d)` is asserted (panicking when
`error` is absent or not an object) and its `type` and `reason` fields are
formatted. -/
def searchErrMsg (r : Response) : Outcome GoError :=
  match decodeIntoMap r.RBody with
  | .error e2 => .ret (.wrap "Error parsing the response body" e2)
  | .ok m =>
    match mapGet m "error" with
    | some (.obj eo) =>
      .ret (.backendBody r.StatusCode ((jlookup "type" eo).getD .null)
        ((jlookup "reason" eo).getD .null))
    | _ => .panicked

/-- The part of `Search` after a non-error response body has been decoded
into the map `m` (source lines from the `hits` presence check to the final
return): absent `hits` returns `StatusNoContent`; then
`result["hits"].(map[string]interface\x7b\x7d)` is asserted, `total` is
extracted, `["hits"].([]interface\x7b\x7d)` is asserted, the loop builds the
`(document, hit)` pairs, and the document array is unmarshalled into the
caller's container — failure returns `StatusParseError`, success returns
`StatusSuccess` with the hit metadata and total. -/
def searchDecoded (m : Option (List (String × Json)))
    (unmarshal : Json → Option GoError) : Outcome SearchRet :=
  match mapGet m "hits" with
  | none => .ret ⟨StatusNoContent, [], 0, none, none⟩
  | some hv =>
    match hv.asObj with
    | none => .panicked
    | some ho =>
      (totalOf ho).bind fun total =>
        match jlookup "hits" ho with
        | some (.arr hs) =>
          match hitsDataOfList hs with
          | none => .panicked
          | some pairs =>
            let documents := pairs.map (fun p => p.1)
            match unmarshal (.arr documents) with
            | some e3 => .ret ⟨StatusParseError, [], 0, some documents, some e3⟩
            | none =>
              .ret ⟨StatusSuccess, pairs.map (fun p => p.2), total, some documents, none⟩
        | _ => .panicked

/-- The function `Search`: `defer res.Body.Close()` runs before the `err` check, so a
transport failure (nil response) panics on the nil dereference.  An error
response builds an error message from the error body and maps 400 to
`StatusBadRequestError`, anything else to `StatusError`.  Otherwise the
body is decoded into a map (`StatusParseError` on failure) and handed to
`searchDecoded`.  `unmarshal v` is the error, if any, of `json.Unmarshal`
of `v` into the caller's container `data`. -/
def Search (backend : TransportResult) (unmarshal : Json → Option GoError) :
    Outcome SearchRet :=
  match backend with
  | .failure _ => .panicked
  | .response r =>
    if r.IsError then
      (searchErrMsg r).bind fun e3 =>
        if r.StatusCode = 400 then .ret ⟨StatusBadRequestError, [], 0, none, some e3⟩
        else .ret ⟨StatusError, [], 0, none, some e3⟩
    else
      match decodeIntoMap r.RBody with
      | .error e2 => .ret ⟨StatusParseError, [], 0, none, some e2⟩
      | .ok m => searchDecoded m unmarshal

/-- The `hits.hits` array of a backend response, as `Search` extracts it:
the body decoded as a map, its `hits` member asserted to an object, and
that object's `hits` member asserted to an array. -/
def responseHits (backend : TransportResult) : Option (List Json) :=
  match backend with
  | .failure _ => none
  | .response r =>
    match decodeIntoMap r.RBody with
    | .error _ => none
    | .ok m =>
      match mapGet m "hits" with
      | none => none
      | some hv =>
        match hv.asObj with
        | none => none
        | some ho =>
          match jlookup "hits" ho with
          | some (.arr hs) => some hs
          | _ => none

/-- A sample hit with a `_score` and no `sort` key. -/
def sampleHit1 : Json :=
  .obj [("_index", .str "i"), ("_type", .str "_doc"), ("_id", .str "a"),
    ("_score", .num 1), ("_source", .obj [("s", .str "x")])]

/-- A sample hit with a `sort` array and no `_score` key. -/
def sampleHit2 : Json :=
  .obj [("_index", .str "i"), ("_type", .str "_doc"), ("_id", .str "b"),
    ("sort", .arr [.num 5]), ("_source", .obj [("s", .str "y")])]

/-- A sample two-hit search response body. -/
def sampleSearchBody : Json :=
  .obj [("hits", .obj [("total", .obj [("value", .num 2)]),
    ("hits", .arr [sampleHit1, sampleHit2])])]

/-- The value `Search` returns on `sampleSearchBody`. -/
def sampleSearchRet : SearchRet :=
  ⟨StatusSuccess,
   [⟨"i", "_doc", "a", 1, none⟩, ⟨"i", "_doc", "b", 0, some [.num 5]⟩],
   2,
   some [.obj [("s", .str "x")], .obj [("s", .str "y")]],
   none⟩

/-! ## Theorems -/

/-- C1 (counterexample): the claim "every backend-contacting operation
returns `StatusRequestError` (499) with a non-nil error on a
transport-level error" fails at a concrete input: `DeleteIndeces` on a
transport failure returns `StatusError` (599), not 499 (its error is
non-nil). -/
theorem deleteIndeces_transport_error_counterexample :
    (DeleteIndeces (some ["idx"]) (.failure (.lit "conn refused"))).status = StatusError ∧
    (DeleteIndeces (some ["idx"]) (.failure (.lit "conn refused"))).status ≠ StatusRequestError ∧
    (DeleteIndeces (some ["idx"]) (.failure (.lit "conn refused"))).err =
      some (.lit "conn refused") :=
  ⟨rfl, by decide, rfl⟩

/-- C1 (amended): on a transport-level failure, `CreateDocument`,
`UpdateDocument` and `RemoveDocument` return `(StatusRequestError, non-nil
error)`; `CreateIndexTemplate` returns `(StatusInternalError, non-nil
error)`; `DeleteIndeces` returns `(StatusError, non-nil error)`; and
`Search`, `Count` and `GetSource` evaluate `res.Body` in their `defer`
statement before the error check, so they panic on the nil response rather
than return. -/
theorem transport_error_statuses (e : GoError) (doc : Document) (v : Json)
    (hb : doc.Body = some (.jsonable v)) (name templates : String)
    (idx : GoSlice String) (u : Json → Option GoError) :
    (CreateDocument doc (.failure e)).outcome = .ret ⟨StatusRequestError, some e⟩ ∧
    (UpdateDocument doc (.failure e)).outcome = .ret ⟨StatusRequestError, some e⟩ ∧
    (RemoveDocument doc (.failure e)).outcome = .ret ⟨StatusRequestError, some e⟩ ∧
    CreateIndexTemplate name templates (.failure e) = ⟨StatusInternalError, some e⟩ ∧
    DeleteIndeces idx (.failure e) = ⟨StatusError, some e⟩ ∧
    Search (.failure e) u = .panicked ∧
    Count (.failure e) = .panicked ∧
    GetSource (.failure e) u = .panicked := by
  refine ⟨?_, ?_, rfl, rfl, rfl, rfl, rfl, rfl⟩ <;>
    simp [CreateDocument, UpdateDocument, marshal, marshalDocumentBody, hb]

/-- Witness for `transport_error_statuses` at a concrete document,
error, index list and unmarshaller. -/
theorem transport_error_statuses_witness :
    (CreateDocument ⟨"i", "d", some (.jsonable (.str "x")), ""⟩
        (.failure (.lit "conn refused"))).outcome =
      .ret ⟨StatusRequestError, some (.lit "conn refused")⟩ ∧
    (UpdateDocument ⟨"i", "d", some (.jsonable (.str "x")), ""⟩
        (.failure (.lit "conn refused"))).outcome =
      .ret ⟨StatusRequestError, some (.lit "conn refused")⟩ ∧
    (RemoveDocument ⟨"i", "d", some (.jsonable (.str "x")), ""⟩
        (.failure (.lit "conn refused"))).outcome =
      .ret ⟨StatusRequestError, some (.lit "conn refused")⟩ ∧
    CreateIndexTemplate "t" "\x7b\x7d" (.failure (.lit "conn refused")) =
      ⟨StatusInternalError, some (.lit "conn refused")⟩ ∧
    DeleteIndeces (some ["i"]) (.failure (.lit "conn refused")) =
      ⟨StatusError, some (.lit "conn refused")⟩ ∧
    Search (.failure (.lit "conn refused")) (fun _ => none) = .panicked ∧
    Count (.failure (.lit "conn refused")) = .panicked ∧
    GetSource (.failure (.lit "conn refused")) (fun _ => none) = .panicked :=
  transport_error_statuses (.lit "conn refused") ⟨"i", "d", some (.jsonable (.str "x")), ""⟩
    (.str "x") rfl "t" "\x7b\x7d" (some ["i"]) (fun _ => none)

/-- C2: a nil document body makes `CreateDocument` and `UpdateDocument`
return `StatusInternalError` with a non-nil error, without invoking the
backend capability at all. -/
theorem write_nil_body_internal (doc : Document) (backend : TransportResult)
    (h : doc.Body = none) :
    CreateDocument doc backend =
      ⟨.ret ⟨StatusInternalError, some (.lit "Required body")⟩, false, none⟩ ∧
    UpdateDocument doc backend =
      ⟨.ret ⟨StatusInternalError, some (.lit "Required body")⟩, false, none⟩ := by
  constructor <;> simp [CreateDocument, UpdateDocument, h]

/-- Witness for `write_nil_body_internal` at a concrete document and
backend. -/
theorem write_nil_body_internal_witness :
    CreateDocument ⟨"i", "d", none, ""⟩ (.response ⟨200, .malformed⟩) =
      ⟨.ret ⟨StatusInternalError, some (.lit "Required body")⟩, false, none⟩ ∧
    UpdateDocument ⟨"i", "d", none, ""⟩ (.response ⟨200, .malformed⟩) =
      ⟨.ret ⟨StatusInternalError, some (.lit "Required body")⟩, false, none⟩ :=
  write_nil_body_internal ⟨"i", "d", none, ""⟩ (.response ⟨200, .malformed⟩) rfl

/-- C5 (code bug, evaluation at the failing input): `GetSource` never
treats a non-404 error status as an error.  On a 500 response whose body
unmarshals cleanly into the caller's result it returns `(500, nil)` — a
nil error where the claim requires a non-nil one — while the 404 half of
the claim does hold: `(404, nil)` without touching the body. -/
theorem getSource_non2xx_nil_error :
    GetSource (.response ⟨500, .json (.obj [("error", .str "boom")])⟩) (fun _ => none) =
      .ret ⟨500, none, true, true⟩ ∧
    GetSource (.response ⟨404, .json (.obj [])⟩) (fun _ => none) =
      .ret ⟨404, none, false, false⟩ :=
  ⟨rfl, rfl⟩

/-- C6 (counterexample): the claim "a non-nil unserializable body makes
`CreateDocument` return `StatusBadRequestError`" fails at a concrete
input: the local `json.Marshal` failure path returns
`StatusInternalError` (500), not 400. -/
theorem createDocument_unserializable_counterexample :
    CreateDocument ⟨"idx", "id1", some .unserializable, ""⟩ (.response ⟨200, .malformed⟩) =
      ⟨.ret ⟨StatusInternalError, some .marshalErr⟩, false, none⟩ ∧
    (StatusInternalError : Int) ≠ StatusBadRequestError :=
  ⟨rfl, by decide⟩

/-- C6 (amended): a non-nil body whose serialization fails makes
`CreateDocument` return `StatusInternalError` (500) — not
`StatusBadRequestError` — with a non-nil error, before any backend call
is made. -/
theorem createDocument_unserializable_internal (doc : Document)
    (backend : TransportResult) (h : doc.Body = some .unserializable) :
    CreateDocument doc backend =
      ⟨.ret ⟨StatusInternalError, some .marshalErr⟩, false, none⟩ := by
  simp [CreateDocument, marshal, h]

/-- Witness for `createDocument_unserializable_internal` at a concrete
document and backend. -/
theorem createDocument_unserializable_internal_witness :
    CreateDocument ⟨"idx", "id1", some .unserializable, ""⟩ (.failure (.lit "e")) =
      ⟨.ret ⟨StatusInternalError, some .marshalErr⟩, false, none⟩ :=
  createDocument_unserializable_internal ⟨"idx", "id1", some .unserializable, ""⟩
    (.failure (.lit "e")) rfl

/-- C8 (code bug, evaluation at the failing inputs): failure paths of
`Count` and `GetSource` reach `log.Fatalf`, which calls `os.Exit(1)` and
terminates the host process instead of returning a `(StatusCode, error)`
pair: `Count` on any backend error response, and `GetSource` on a
response whose body fails to read or decode. -/
theorem count_getSource_fatal :
    Count (.response ⟨400, .json (.obj [("error", .str "bad query")])⟩) = .fatal ∧
    Count (.response ⟨200, .malformed⟩) = .fatal ∧
    GetSource (.response ⟨500, .malformed⟩) (fun _ => none) = .fatal ∧
    GetSource (.response ⟨200, .unreadable⟩) (fun _ => none) = .fatal ∧
    GetSource (.response ⟨200, .json (.str "x")⟩) (fun _ => some .decodeFail) = .fatal :=
  ⟨rfl, rfl, rfl, rfl, rfl⟩

/-- C9: the zero-argument `Refresh` call (the nil variadic slice)
produces a request that refreshes all indices, and that request is a
different value from the request an explicit empty index set produces —
the two forms are not collapsed. -/
theorem refresh_zero_arg_distinct (allIndices : List String) :
    refreshTargets (Refresh none) allIndices = allIndices ∧
    Refresh none ≠ Refresh (some []) := by
  refine ⟨rfl, ?_⟩
  simp [Refresh]

/-- Witness for `refresh_zero_arg_distinct` at a concrete index list. -/
theorem refresh_zero_arg_distinct_witness :
    refreshTargets (Refresh none) ["a", "b"] = ["a", "b"] ∧
    Refresh none ≠ Refresh (some []) :=
  refresh_zero_arg_distinct ["a", "b"]

/-- C10: when the backend response to `GetSource` has status 404, the
function returns `(404, nil)` before reading or decoding the body: the
body is never read and the caller-supplied result value is never
written. -/
theorem getSource_404_untouched (r : Response) (u : Json → Option GoError)
    (h : r.StatusCode = 404) :
    GetSource (.response r) u = .ret ⟨404, none, false, false⟩ := by
  simp [GetSource, h]

/-- Witness for `getSource_404_untouched` at a concrete response whose
body could not even be read. -/
theorem getSource_404_untouched_witness :
    GetSource (.response ⟨404, .unreadable⟩) (fun _ => some .decodeFail) =
      .ret ⟨404, none, false, false⟩ :=
  getSource_404_untouched ⟨404, .unreadable⟩ (fun _ => some .decodeFail) rfl

/-- C3: both response shapes of a successfully decoded `Search` body:
a body with no top-level `hits` member yields `StatusNoContent`, no hits,
total 0 and nil error (and the caller's container is never touched);
a body whose `hits` member is present with an empty `hits` array and a
zero total yields `StatusSuccess`, no hits, total 0, an empty document
list handed to the caller's container, and nil error. -/
theorem search_no_hits_vs_zero_matches
    (r1 r2 : Response) (u : Json → Option GoError)
    (fs gs ho : List (String × Json))
    (h1e : r1.IsError = false) (h1b : r1.RBody = .json (.obj fs))
    (h1h : jlookup "hits" fs = none)
    (h2e : r2.IsError = false) (h2b : r2.RBody = .json (.obj gs))
    (h2h : jlookup "hits" gs = some (.obj ho))
    (h2a : jlookup "hits" ho = some (.arr []))
    (h2t : totalOf ho = .ret 0)
    (h2u : u (.arr []) = none) :
    Search (.response r1) u = .ret ⟨StatusNoContent, [], 0, none, none⟩ ∧
    Search (.response r2) u = .ret ⟨StatusSuccess, [], 0, some [], none⟩ := by
  constructor
  · simp [Search, h1e, h1b, decodeIntoMap, searchDecoded, mapGet, h1h]
  · simp [Search, h2e, h2b, decodeIntoMap, searchDecoded, mapGet, h2h,
      Json.asObj, h2t, Outcome.bind, h2a, hitsDataOfList, h2u]

/-- Witness for `search_no_hits_vs_zero_matches` at concrete responses:
one with no `hits` member, one with an empty `hits.hits` array and total
value 0. -/
theorem search_no_hits_vs_zero_matches_witness :
    Search (.response ⟨200, .json (.obj [("took", .num 2)])⟩) (fun _ => none) =
      .ret ⟨StatusNoContent, [], 0, none, none⟩ ∧
    Search (.response ⟨200, .json (.obj [("hits",
        .obj [("total", .obj [("value", .num 0)]), ("hits", .arr [])])])⟩)
      (fun _ => none) =
      .ret ⟨StatusSuccess, [], 0, some [], none⟩ :=
  search_no_hits_vs_zero_matches ⟨200, .json (.obj [("took", .num 2)])⟩
    ⟨200, .json (.obj [("hits",
      .obj [("total", .obj [("value", .num 0)]), ("hits", .arr [])])])⟩
    (fun _ => none) [("took", .num 2)]
    [("hits", .obj [("total", .obj [("value", .num 0)]), ("hits", .arr [])])]
    [("total", .obj [("value", .num 0)]), ("hits", .arr [])]
    rfl rfl rfl rfl rfl rfl rfl rfl rfl

/-- A JSON value never equals the object that wraps it under a `doc` key
(the wrapper is strictly larger). -/
theorem json_doc_wrap_ne (v : Json) : Json.obj [("doc", v)] ≠ v := by
  intro h
  have hs := congrArg (fun j => sizeOf j) h
  simp at hs
  omega

/-- C7: for a document with a non-nil serializable body, `UpdateDocument`
sends the backend the wrapper object `\x7bdoc: <body>\x7d` — which is never the
body itself — and on a backend success response (whose body decodes with a
numeric `_version`, as every update acknowledgement does) it returns
`StatusSuccess` with nil error. -/
theorem updateDocument_wraps_doc (doc : Document) (v : Json) (r : Response)
    (fs : List (String × Json)) (k : Int)
    (hb : doc.Body = some (.jsonable v))
    (hne : r.IsError = false)
    (hbody : r.RBody = .json (.obj fs))
    (hver : jlookup "_version" fs = some (.num k)) :
    (UpdateDocument doc (.response r)).sentBody = some (.obj [("doc", v)]) ∧
    Json.obj [("doc", v)] ≠ v ∧
    (UpdateDocument doc (.response r)).outcome = .ret ⟨StatusSuccess, none⟩ := by
  refine ⟨?_, json_doc_wrap_ne v, ?_⟩ <;>
    simp [UpdateDocument, marshalDocumentBody, hb, hne, hbody, decodeIntoMap,
      mapGet, hver]

/-- Witness for `updateDocument_wraps_doc` at a concrete document and
acknowledgement response. -/
theorem updateDocument_wraps_doc_witness :
    (UpdateDocument ⟨"i", "d", some (.jsonable (.obj [("s", .str "x")])), ""⟩
        (.response ⟨200, .json (.obj [("result", .str "updated"),
          ("_version", .num 2), ("_id", .str "d")])⟩)).sentBody =
      some (.obj [("doc", .obj [("s", .str "x")])]) ∧
    Json.obj [("doc", .obj [("s", .str "x")])] ≠ .obj [("s", .str "x")] ∧
    (UpdateDocument ⟨"i", "d", some (.jsonable (.obj [("s", .str "x")])), ""⟩
        (.response ⟨200, .json (.obj [("result", .str "updated"),
          ("_version", .num 2), ("_id", .str "d")])⟩)).outcome =
      .ret ⟨StatusSuccess, none⟩ :=
  updateDocument_wraps_doc ⟨"i", "d", some (.jsonable (.obj [("s", .str "x")])), ""⟩
    (.obj [("s", .str "x")])
    ⟨200, .json (.obj [("result", .str "updated"), ("_version", .num 2),
      ("_id", .str "d")])⟩
    [("result", .str "updated"), ("_version", .num 2), ("_id", .str "d")] 2
    rfl rfl rfl rfl

/-- Inversion for `Outcome.bind`: a bind that returns went through a
returning first stage. -/
theorem Outcome.bind_ret {α β : Type} {o : Outcome α} {f : α → Outcome β} {b : β}
    (h : o.bind f = .ret b) : ∃ a, o = .ret a ∧ f a = .ret b := by
  cases o with
  | ret a => exact ⟨a, rfl, h⟩
  | fatal => simp [Outcome.bind] at h
  | panicked => simp [Outcome.bind] at h

/-- A successful `Search` loop produces exactly one pair per hit. -/
theorem hitsDataOfList_length (hs : List Json) (pairs : List (Json × HitData))
    (h : hitsDataOfList hs = some pairs) : pairs.length = hs.length := by
  induction hs generalizing pairs with
  | nil =>
    simp [hitsDataOfList] at h
    simp [← h]
  | cons hd tl ih =>
    unfold hitsDataOfList at h
    cases hp : hitDataOf hd with
    | none => rw [hp] at h; simp at h
    | some p =>
      rw [hp] at h
      cases ht : hitsDataOfList tl with
      | none => rw [ht] at h; simp at h
      | some ps =>
        rw [ht] at h
        simp at h
        simp [← h, ih ps ht]

/-- A successful `Search` loop is pointwise the per-hit extraction, in
array order. -/
theorem hitsDataOfList_get (hs : List Json) (pairs : List (Json × HitData))
    (h : hitsDataOfList hs = some pairs) (i : Nat) :
    (hs.get? i).bind hitDataOf = pairs.get? i := by
  induction hs generalizing pairs i with
  | nil =>
    simp [hitsDataOfList] at h
    subst h
    simp
  | cons hd tl ih =>
    unfold hitsDataOfList at h
    cases hp : hitDataOf hd with
    | none => rw [hp] at h; simp at h
    | some p =>
      rw [hp] at h
      cases ht : hitsDataOfList tl with
      | none => rw [ht] at h; simp at h
      | some ps =>
        rw [ht] at h
        simp at h
        rw [← h]
        cases i with
        | zero => simp [hp]
        | succ n => simpa using ih ps ht n

/-- Inversion of the post-decode part of `Search`: a `StatusSuccess`
return can only come from the final branch, so it determines the `hits`
array, the loop's pairs, and the returned components. -/
theorem searchDecoded_success (m : Option (List (String × Json)))
    (u : Json → Option GoError) (s : SearchRet)
    (h : searchDecoded m u = .ret s) (hst : s.status = StatusSuccess) :
    ∃ hv ho hs pairs t,
      mapGet m "hits" = some hv ∧ hv.asObj = some ho ∧
      jlookup "hits" ho = some (.arr hs) ∧
      hitsDataOfList hs = some pairs ∧
      s = ⟨StatusSuccess, pairs.map (fun p => p.2), t,
            some (pairs.map (fun p => p.1)), none⟩ := by
  cases hm : mapGet m "hits" with
  | none =>
    simp only [searchDecoded, hm] at h
    have hxs := Outcome.ret.inj h
    subst hxs
    exact absurd hst (by decide)
  | some hv =>
    cases hobj : hv.asObj with
    | none =>
      simp only [searchDecoded, hm, hobj] at h
      exact Outcome.noConfusion h
    | some ho =>
      cases hTT : totalOf ho with
      | fatal =>
        simp only [searchDecoded, hm, hobj, hTT, Outcome.bind] at h
        exact Outcome.noConfusion h
      | panicked =>
        simp only [searchDecoded, hm, hobj, hTT, Outcome.bind] at h
        exact Outcome.noConfusion h
      | ret t =>
        cases hl : jlookup "hits" ho with
        | none =>
          simp only [searchDecoded, hm, hobj, hTT, Outcome.bind, hl] at h
          exact Outcome.noConfusion h
        | some hj =>
          cases hj with
          | arr hs =>
            cases hdl : hitsDataOfList hs with
            | none =>
              simp only [searchDecoded, hm, hobj, hTT, Outcome.bind, hl, hdl] at h
              exact Outcome.noConfusion h
            | some pairs =>
              cases hu : u (.arr (pairs.map (fun p => p.1))) with
              | some e3 =>
                simp only [searchDecoded, hm, hobj, hTT, Outcome.bind, hl, hdl, hu] at h
                have hxs := Outcome.ret.inj h
                subst hxs
                simp [StatusParseError, StatusSuccess] at hst
              | none =>
                simp only [searchDecoded, hm, hobj, hTT, Outcome.bind, hl, hdl, hu] at h
                have hxs := Outcome.ret.inj h
                subst hxs
                exact ⟨hv, ho, hs, pairs, t, rfl, hobj, hl, hdl, rfl⟩
          | null =>
            simp only [searchDecoded, hm, hobj, hTT, Outcome.bind, hl] at h
            exact Outcome.noConfusion h
          | bool b =>
            simp only [searchDecoded, hm, hobj, hTT, Outcome.bind, hl] at h
            exact Outcome.noConfusion h
          | num n =>
            simp only [searchDecoded, hm, hobj, hTT, Outcome.bind, hl] at h
            exact Outcome.noConfusion h
          | str s2 =>
            simp only [searchDecoded, hm, hobj, hTT, Outcome.bind, hl] at h
            exact Outcome.noConfusion h
          | obj fs2 =>
            simp only [searchDecoded, hm, hobj, hTT, Outcome.bind, hl] at h
            exact Outcome.noConfusion h

/-- C4: whenever `Search` returns `StatusSuccess`, the hit-metadata list
and the document list handed to the caller's container have the length of
the response's `hits.hits` array, and at every index both components are
the extraction of that same underlying hit, in the response's array
order. -/
theorem search_success_alignment (backend : TransportResult)
    (u : Json → Option GoError) (s : SearchRet)
    (h : Search backend u = .ret s) (hst : s.status = StatusSuccess) :
    ∃ hs docs, responseHits backend = some hs ∧
      s.documents = some docs ∧
      s.hits.length = hs.length ∧ docs.length = hs.length ∧
      ∀ i : Nat, (hs.get? i).bind hitDataOf =
        (docs.get? i).bind fun d => (s.hits.get? i).map fun hd => (d, hd) := by
  cases backend with
  | failure e => simp [Search] at h
  | response r =>
    cases hie : r.IsError with
    | true =>
      simp only [Search, hie, if_true] at h
      obtain ⟨e3, hmsg, h⟩ := Outcome.bind_ret h
      by_cases h4 : r.StatusCode = 400
      · simp only [h4, if_true] at h
        have hxs := Outcome.ret.inj h
        subst hxs
        simp [StatusBadRequestError, StatusSuccess] at hst
      · simp only [h4, if_false] at h
        have hxs := Outcome.ret.inj h
        subst hxs
        simp [StatusError, StatusSuccess] at hst
    | false =>
      cases hd : decodeIntoMap r.RBody with
      | error e2 =>
        simp only [Search, hie, Bool.false_eq_true, if_false, hd] at h
        have hxs := Outcome.ret.inj h
        subst hxs
        simp [StatusParseError, StatusSuccess] at hst
      | ok m =>
        simp only [Search, hie, Bool.false_eq_true, if_false, hd] at h
        obtain ⟨hv, ho, hs, pairs, t, hm, hobj, hl, hdl, rfl⟩ :=
          searchDecoded_success m u s h hst
        refine ⟨hs, pairs.map (fun p => p.1), ?_, rfl, ?_, ?_, ?_⟩
        · simp [responseHits, hd, hm, hobj, hl]
        · simp [hitsDataOfList_length hs pairs hdl]
        · simp [hitsDataOfList_length hs pairs hdl]
        · intro i
          rw [hitsDataOfList_get hs pairs hdl i]
          cases hpi : pairs[i]? with
          | none => simp [List.getElem?_map, hpi]
          | some p => simp [List.getElem?_map, hpi]

/-- Witness for `search_success_alignment` at a concrete two-hit
response. -/
theorem search_success_alignment_witness :
    ∃ hs docs,
      responseHits (.response ⟨200, .json sampleSearchBody⟩) = some hs ∧
      sampleSearchRet.documents = some docs ∧
      sampleSearchRet.hits.length = hs.length ∧ docs.length = hs.length ∧
      ∀ i : Nat, (hs.get? i).bind hitDataOf =
        (docs.get? i).bind fun d => (sampleSearchRet.hits.get? i).map fun hd => (d, hd) :=
  search_success_alignment (.response ⟨200, .json sampleSearchBody⟩)
    (fun _ => none) sampleSearchRet rfl rfl

end Elasticsearch
